import Mathlib

/-!
Verification of the LightIdCheck capture component (src/unnamed/part_001).

The geometry, detector decision logic, detection-tick state updates, the
auto-capture timing machine and the vision-engine resource discipline are
shallowly embedded below.  Pixel coordinates and scores are modelled as
rationals (the source operates on IEEE doubles whose inputs here are exact
decimal literals, so every computation performed by the embedded fragments
is exact).  Opaque collaborators (the face-landmark model, the vision
engine, the browser canvas) enter only through their results: a detector
call is an Except value (error = the awaited call threw), a contour is the
triple of data the vision engine reports for it, and a point-in-path test
result is a boolean parameter.
-/

/-- Axis-aligned rectangle, as the plain x/y/w/h objects used by
cardOverlayRectCanvas and canvasRectToVideoRect. -/
structure RectQ where
  x : ℚ
  y : ℚ
  w : ℚ
  h : ℚ
deriving DecidableEq, Repr

/-- The Mapping published by the draw loop: video size, cover-fit scale,
centering offsets and the mirroring flag (interface Mapping, lines 63-72;
the canvas size fields cW/cH are not read by the rectangle transforms and
are passed separately where needed). -/
structure MappingQ where
  vw : ℚ
  vh : ℚ
  scale : ℚ
  dx : ℚ
  dy : ℚ
  mirrored : Bool
deriving DecidableEq, Repr

/-- The mapping computed by the draw loop each frame (lines 194-203):
scale = max(cW/vw, cH/vh), dx = floor((cW-vw*scale)/2),
dy = floor((cH-vh*scale)/2). -/
def computeMapping (cW cH vw vh : ℚ) (mirrored : Bool) : MappingQ :=
  let scale := max (cW / vw) (cH / vh)
  let dw := vw * scale
  let dh := vh * scale
  ⟨vw, vh, scale, ((⌊(cW - dw) / 2⌋ : ℤ) : ℚ), ((⌊(cH - dh) / 2⌋ : ℤ) : ℚ), mirrored⟩

/-- canvasRectToVideoRect (lines 588-599), verbatim: inverse of the
cover-fit transform with the mirrored branch, then the clamps
max(0,xv), max(0,yv), min(wv,vw), min(hv,vh). -/
def canvasRectToVideoRect (rc : RectQ) (m : MappingQ) : RectQ :=
  let wv := rc.w / m.scale
  let hv := rc.h / m.scale
  let xv := bif m.mirrored then m.vw - (rc.x - m.dx) / m.scale - wv
            else (rc.x - m.dx) / m.scale
  let yv := (rc.y - m.dy) / m.scale
  ⟨max 0 xv, max 0 yv, min wv m.vw, min hv m.vh⟩

/-- The forward cover-fit transform of a video-space rectangle into canvas
space, as performed by the draw loop (drawImage at dx,dy with sizes scaled,
lines 196-213) and, for the mirrored case, by the face box mapping
left = dx + (vw - (x+w))*scale, top = dy + y*scale (lines 317-320). -/
def videoRectToCanvasRect (r : RectQ) (m : MappingQ) : RectQ :=
  bif m.mirrored then
    ⟨m.dx + (m.vw - (r.x + r.w)) * m.scale, m.dy + r.y * m.scale,
     r.w * m.scale, r.h * m.scale⟩
  else
    ⟨m.dx + r.x * m.scale, m.dy + r.y * m.scale, r.w * m.scale, r.h * m.scale⟩

/-- The rectangle lies fully inside the source (video) raster. -/
def insideSource (r : RectQ) (m : MappingQ) : Prop :=
  0 ≤ r.x ∧ 0 ≤ r.y ∧ r.x + r.w ≤ m.vw ∧ r.y + r.h ≤ m.vh

instance (r : RectQ) (m : MappingQ) : Decidable (insideSource r m) := by
  unfold insideSource; infer_instance

/-- The rectangle lies fully inside the destination (canvas) raster. -/
def insideDest (r : RectQ) (cW cH : ℚ) : Prop :=
  0 ≤ r.x ∧ 0 ≤ r.y ∧ r.x + r.w ≤ cW ∧ r.y + r.h ≤ cH

instance (r : RectQ) (cW cH : ℚ) : Decidable (insideDest r cW cH) := by
  unfold insideDest; infer_instance

/-- cardOverlayRectCanvas (lines 580-586): 90% of canvas width, card
aspect ratio 1.586, vertically centered at 55% of canvas height. -/
def cardOverlayRectCanvas (cW cH : ℚ) : RectQ :=
  let w := cW * 0.9
  let h := w / 1.586
  let x := (cW - w) / 2
  let y := cH * 0.55 - h / 2
  ⟨x, y, w, h⟩

/-- Claim C2 counterexample: the destination rectangle (1,0,1,1) is fully
inside the 2 x 1 canvas, the mapping is the one the draw loop computes for
a 5 x 2 video on that canvas (scale 1/2, floored centering dx = -1), yet
the mapped source rectangle has x + w = 6 > vw = 5: the clamp
w := min(wv, vw) does not bound x + w by vw. -/
theorem canvasRectToVideoRect_exceeds_source_cex :
    insideDest (RectQ.mk 1 0 1 1) 2 1 ∧
    (canvasRectToVideoRect (RectQ.mk 1 0 1 1) (computeMapping 2 1 5 2 false)).x +
      (canvasRectToVideoRect (RectQ.mk 1 0 1 1) (computeMapping 2 1 5 2 false)).w = 6 ∧
    ¬ ((canvasRectToVideoRect (RectQ.mk 1 0 1 1) (computeMapping 2 1 5 2 false)).x +
        (canvasRectToVideoRect (RectQ.mk 1 0 1 1) (computeMapping 2 1 5 2 false)).w
        ≤ (computeMapping 2 1 5 2 false).vw) := by
  have hmap : computeMapping 2 1 5 2 false = MappingQ.mk 5 2 (1/2) (-1) 0 false := by
    unfold computeMapping
    norm_num
  have hrect : canvasRectToVideoRect (RectQ.mk 1 0 1 1) (MappingQ.mk 5 2 (1/2) (-1) 0 false)
      = RectQ.mk 4 0 2 2 := by
    unfold canvasRectToVideoRect
    norm_num
  rw [hmap, hrect]
  refine ⟨⟨by norm_num, by norm_num, by norm_num, by norm_num⟩, by norm_num, by norm_num⟩

/-- Claim C2 (amended): the clamps of canvasRectToVideoRect guarantee
x ≥ 0, y ≥ 0, w ≤ vw and h ≤ vh for every input rectangle and mapping;
the stronger bounds x + w ≤ vw and y + h ≤ vh do not hold in general. -/
theorem canvasRectToVideoRect_clamp_bounds :
    ∀ (rc : RectQ) (m : MappingQ),
      0 ≤ (canvasRectToVideoRect rc m).x ∧
      0 ≤ (canvasRectToVideoRect rc m).y ∧
      (canvasRectToVideoRect rc m).w ≤ m.vw ∧
      (canvasRectToVideoRect rc m).h ≤ m.vh := by
  intro rc m
  unfold canvasRectToVideoRect
  exact ⟨le_max_left 0 _, le_max_left 0 _, min_le_right _ _, min_le_right _ _⟩

/-- Claim C7: for every mapping with positive scale (mirrored or not) and
every rectangle fully inside the source raster, mapping it forward with
the cover-fit transform and back through canvasRectToVideoRect returns the
original rectangle exactly (the computation on rationals is exact, hence
within any rounding tolerance), and in particular the mirrored round trip
is mirror-consistent. -/
theorem roundtrip_canvas_video (m : MappingQ) (r : RectQ)
    (hs : 0 < m.scale) (hr : insideSource r m) :
    canvasRectToVideoRect (videoRectToCanvasRect r m) m = r := by
  obtain ⟨hx, hy, hxw, hyh⟩ := hr
  have hs0 : m.scale ≠ 0 := ne_of_gt hs
  have hwle : r.w ≤ m.vw := by linarith
  have hhle : r.h ≤ m.vh := by linarith
  obtain ⟨rx, ry, rw2, rh2⟩ := r
  unfold canvasRectToVideoRect videoRectToCanvasRect
  cases hm : m.mirrored <;>
    simp only [hm, cond_true, cond_false, RectQ.mk.injEq] <;>
    refine ⟨?_, ?_, ?_, ?_⟩
  · have e1 : (m.dx + rx * m.scale - m.dx) / m.scale = rx := by
      have e0 : m.dx + rx * m.scale - m.dx = rx * m.scale := by ring
      rw [e0, mul_div_cancel_right₀ _ hs0]
    rw [e1]; exact max_eq_right hx
  · have e1 : (m.dy + ry * m.scale - m.dy) / m.scale = ry := by
      have e0 : m.dy + ry * m.scale - m.dy = ry * m.scale := by ring
      rw [e0, mul_div_cancel_right₀ _ hs0]
    rw [e1]; exact max_eq_right hy
  · rw [mul_div_cancel_right₀ _ hs0]; exact min_eq_left hwle
  · rw [mul_div_cancel_right₀ _ hs0]; exact min_eq_left hhle
  · have e1 : (m.dx + (m.vw - (rx + rw2)) * m.scale - m.dx) / m.scale
        = m.vw - (rx + rw2) := by
      have e0 : m.dx + (m.vw - (rx + rw2)) * m.scale - m.dx
          = (m.vw - (rx + rw2)) * m.scale := by ring
      rw [e0, mul_div_cancel_right₀ _ hs0]
    have e2 : rw2 * m.scale / m.scale = rw2 := mul_div_cancel_right₀ _ hs0
    rw [e1, e2]
    have e3 : m.vw - (m.vw - (rx + rw2)) - rw2 = rx := by ring
    rw [e3]; exact max_eq_right hx
  · have e1 : (m.dy + ry * m.scale - m.dy) / m.scale = ry := by
      have e0 : m.dy + ry * m.scale - m.dy = ry * m.scale := by ring
      rw [e0, mul_div_cancel_right₀ _ hs0]
    rw [e1]; exact max_eq_right hy
  · rw [mul_div_cancel_right₀ _ hs0]; exact min_eq_left hwle
  · rw [mul_div_cancel_right₀ _ hs0]; exact min_eq_left hhle

/-- Claim C7 witness: a concrete draw-loop mapping (4 x 4 canvas over a
4 x 4 video, scale 1) and the rectangle (1,1,2,2) inside the source raster
round-trip to themselves. -/
theorem roundtrip_canvas_video_witness :
    0 < (computeMapping 4 4 4 4 false).scale ∧
    insideSource (RectQ.mk 1 1 2 2) (computeMapping 4 4 4 4 false) ∧
    canvasRectToVideoRect
        (videoRectToCanvasRect (RectQ.mk 1 1 2 2) (computeMapping 4 4 4 4 false))
        (computeMapping 4 4 4 4 false) = RectQ.mk 1 1 2 2 :=
  ⟨by unfold computeMapping; norm_num,
   by unfold insideSource computeMapping; norm_num,
   roundtrip_canvas_video _ _ (by unfold computeMapping; norm_num)
     (by unfold insideSource computeMapping; norm_num)⟩

/-- faceSilhouettePath2D (lines 538-563) as the ordered list of the points
the path is built from: the moveTo point followed by the three control
points of each of the eight bezierCurveTo calls (the closed curve is a pure
function of these 28 points, so two invocations draw the same curve exactly
when these lists agree). -/
def faceSilhouettePoints (cx cy w h : ℚ) : List (ℚ × ℚ) :=
  let rx := w / 2
  let ry := h / 1.8
  let topY := cy - ry
  let chinY := cy + ry * 0.86
  let browY := cy - ry * 0.35
  let cheekY := cy + ry * 0
  let jawY := cy + ry * 0.55
  let craniumX := rx * 1.05
  let templeX := rx * 0.95
  let cheekX := rx * 0.9
  let jawX := rx * 0.69
  [(cx, topY),
   (cx + craniumX, topY), (cx + templeX, browY), (cx + templeX, browY),
   (cx + templeX, browY + ry * 0.1), (cx + cheekX, cheekY), (cx + cheekX, cheekY),
   (cx + cheekX * 0.95, cheekY + ry * 0.2), (cx + jawX, jawY), (cx + jawX, jawY),
   (cx + jawX * 0.85, jawY + ry * 0.2), (cx + (w * 0.2) / 2, chinY), (cx, chinY),
   (cx - (w * 0.2) / 2, chinY), (cx - jawX * 0.85, jawY + ry * 0.2), (cx - jawX, jawY),
   (cx - jawX, jawY), (cx - cheekX * 0.95, cheekY + ry * 0.2), (cx - cheekX, cheekY),
   (cx - cheekX, cheekY), (cx - templeX, browY + ry * 0.1), (cx - templeX, browY),
   (cx - templeX, browY), (cx - craniumX, topY), (cx, topY)]

/-- The face guide path built by the render loop for drawing
(lines 226-231): cx = cW/2, cy = cH*0.5, w = min(cW,cH)*0.7, h = w*1.25. -/
def drawFaceGuidePath (cW cH : ℚ) : List (ℚ × ℚ) :=
  faceSilhouettePoints (cW / 2) (cH * 0.5) (min cW cH * 0.7) (min cW cH * 0.7 * 1.25)

/-- The face guide path built by detectionTick for the point-in-path hit
test (lines 322-327): same cx, cy and width, but height
min(cW,cH)*0.5*1.25. -/
def tickFaceGuidePath (cW cH : ℚ) : List (ℚ × ℚ) :=
  faceSilhouettePoints (cW / 2) (cH * 0.5) (min cW cH * 0.7) (min cW cH * 0.5 * 1.25)

/-- Claim C1 fails on the code: at canvas size 1000 x 2000 the hit-test
path of detectionTick is built with height 625 while the drawn path has
height 875 (the tick passes min(cW,cH)*0.5*1.25 where the draw loop uses
min(cW,cH)*0.7*1.25), so the two guide paths differ. -/
theorem face_guide_hit_test_path_differs :
    min (1000:ℚ) 2000 * 0.5 * 1.25 = 625 ∧
    min (1000:ℚ) 2000 * 0.7 * 1.25 = 875 ∧
    tickFaceGuidePath 1000 2000 ≠ drawFaceGuidePath 1000 2000 := by
  refine ⟨by norm_num, by norm_num, ?_⟩
  unfold tickFaceGuidePath drawFaceGuidePath faceSilhouettePoints
  intro hcontra
  have h1 := List.head_eq_of_cons_eq hcontra
  have h2 : ((625:ℚ)/1.8 : ℚ) = (875:ℚ)/1.8 := by
    have := congrArg Prod.snd h1
    norm_num at this
  norm_num at h2

/-- Guide mode selector (type OverlayMode, line 54). -/
inductive GuideMode
  | face
  | card
deriving DecidableEq, Repr

/-- The mutable session state read and written by the detection tick, the
auto-capture timeout callback and the overlay selector: the current guide
mode (overlayRef), the two per-mode detection flags (faceInsideRef,
cardOkRef), the React capturePending state (line 112), the number of armed
setTimeout callbacks not yet fired, and the number of captures taken. -/
structure SessionState where
  overlay : GuideMode
  faceInside : Bool
  cardOk : Bool
  capturePendingState : Bool
  armedTimers : ℕ
  captures : ℕ
deriving DecidableEq, Repr

/-- The fused boolean of lines 372-375 and 379-381: the detection flag of
the mode currently in overlayRef. -/
def flagOf (s : SessionState) : Bool :=
  match s.overlay with
  | GuideMode.face => s.faceInside
  | GuideMode.card => s.cardOk

/-- The auto-capture section of detectionTick (lines 370-387),
parameterized by the capturePending value the executing closure observes:
if autoCapture is enabled, the observed pending flag is false and the
fused boolean is true, set capturePending and schedule one timeout. -/
def autoCaptureSection (autoCapture observedPending : Bool) (s : SessionState) :
    SessionState :=
  if autoCapture && !observedPending && flagOf s then
    { s with capturePendingState := true, armedTimers := s.armedTimers + 1 }
  else s

/-- The auto-capture section as actually executed each interval tick.
setInterval (line 421) permanently holds the detectionTick closure of the
render in which the stream started, and capturePending is also missing
from that useCallback's dependency list (line 388), so the closure's
observed capturePending is the initial-render value false forever; the
React state set by setCapturePending is never the value the guard reads. -/
def tickAutoCaptureRegistered (autoCapture : Bool) (s : SessionState) : SessionState :=
  autoCaptureSection autoCapture false s

/-- The setTimeout callback (lines 378-385): re-read overlayRef and the
detection flag of the mode current at fire time, capture when it is true,
then clear capturePending; the timer is consumed. -/
def captureTimeoutFire (s : SessionState) : SessionState :=
  { s with captures := s.captures + (if flagOf s then 1 else 0),
           capturePendingState := false,
           armedTimers := s.armedTimers - 1 }

/-- The overlay selector (setOverlay propagated to overlayRef by the
effect of lines 128-130): changes only the mode; no timer is cancelled
and no detection flag is touched. -/
def setOverlayMode (mo : GuideMode) (s : SessionState) : SessionState :=
  { s with overlay := mo }

/-- Claim C3 fails on the code: starting from the initial state in face
mode with the face flag true and auto-capture enabled, two consecutive
detection ticks arm two timers (the guard reads the stale closure value
false of capturePending, not the updated React state), and when both
timers fire with the flag still true two captures occur instead of the
claimed single armed timer and single capture. -/
theorem auto_capture_stale_guard_double_arm :
    (tickAutoCaptureRegistered true (tickAutoCaptureRegistered true
        (SessionState.mk GuideMode.face true false false 0 0))).armedTimers = 2 ∧
    (captureTimeoutFire (captureTimeoutFire (tickAutoCaptureRegistered true
        (tickAutoCaptureRegistered true
          (SessionState.mk GuideMode.face true false false 0 0))))).captures = 2 := by
  decide

/-- Claim C10: changing the guide mode while an auto-capture timer is
armed leaves the armed timer and both detection flags untouched, and the
timeout callback then captures exactly when the detection flag of the mode
active at fire time (the newly selected mode) is true. -/
theorem mode_change_timer_recheck :
    ∀ (s : SessionState) (mo : GuideMode),
      (setOverlayMode mo s).armedTimers = s.armedTimers ∧
      (setOverlayMode mo s).faceInside = s.faceInside ∧
      (setOverlayMode mo s).cardOk = s.cardOk ∧
      flagOf (setOverlayMode mo s)
        = (match mo with
           | GuideMode.face => s.faceInside
           | GuideMode.card => s.cardOk) ∧
      (captureTimeoutFire (setOverlayMode mo s)).captures
        = s.captures + (if flagOf (setOverlayMode mo s) then 1 else 0) ∧
      (captureTimeoutFire (setOverlayMode mo s)).armedTimers
        = s.armedTimers - 1 := by
  intro s mo
  cases mo <;> simp [setOverlayMode, captureTimeoutFire, flagOf]

/-- The teardown-relevant part of the component state for session close:
whether the animation frame, the detection interval and the camera stream
are active, and the log of payloads passed to the onCapture callback. -/
structure CloseState where
  rafActive : Bool
  intervalActive : Bool
  streamActive : Bool
  callbackLog : List (Option String)
deriving DecidableEq, Repr

/-- stopStream (lines 132-146): cancels the animation frame, clears the
detection interval and stops the camera tracks; it never invokes the
onCapture callback. -/
def stopStream (s : CloseState) : CloseState :=
  { s with rafActive := false, intervalActive := false, streamActive := false }

/-- close (lines 148-151): stopStream, then onCapture(null). -/
def closeSession (s : CloseState) : CloseState :=
  let s1 := stopStream s
  { s1 with callbackLog := s1.callbackLog ++ [none] }

/-- The effect cleanup run when isOpen turns false (lines 437-441):
it calls stopStream only. -/
def isOpenFalseCleanup (s : CloseState) : CloseState :=
  stopStream s

/-- Claim C5 fails on the code: closing the session by the isOpen flag
turning false runs only stopStream, so the capture callback is invoked
zero times, not exactly once with a null payload. -/
theorem isOpen_close_no_callback_cex :
    (isOpenFalseCleanup (CloseState.mk true true true [])).callbackLog.length = 0 ∧
    ¬ ((isOpenFalseCleanup (CloseState.mk true true true [])).callbackLog.length = 1) := by
  decide

/-- Claim C5 (amended): only the explicit close action invokes the capture
callback, exactly once with the null payload; the cleanup triggered by the
isOpen flag turning false stops the stream, the render loop and the
detection interval without invoking the callback at all. -/
theorem close_paths_callback_log :
    ∀ s : CloseState,
      (closeSession s).callbackLog = s.callbackLog ++ [none] ∧
      (isOpenFalseCleanup s).callbackLog = s.callbackLog ∧
      (isOpenFalseCleanup s).rafActive = false ∧
      (isOpenFalseCleanup s).intervalActive = false ∧
      (isOpenFalseCleanup s).streamActive = false := by
  intro s
  simp [closeSession, isOpenFalseCleanup, stopStream]

/-- Face-mode branch of detectionTick (lines 295-339), as a function of
the awaited detector pipeline result and the previous faceInsideRef value.
The Except value is the outcome of the awaited faceapi call combined with
the point-in-path test: error () when the await threw (control jumps to
the catch of line 337 before any assignment), ok none when no box was
returned, ok (some b) when a box was returned and the hit test gave b.
The reset of faceInsideRef to false (line 312) executes only after the
await succeeds. -/
def faceTickFlag (det : Except Unit (Option Bool)) (prev : Bool) : Bool :=
  match det with
  | Except.error _ => prev
  | Except.ok b =>
      match b with
      | none => false
      | some inside => inside

/-- Card-mode branch of detectionTick (lines 340-367), as a function of
the outcomes of the awaited calls: ensureCV is ensureOpenCV (error = the
load rejected), cvReady is isOpenCVReady(), primary is estimateCardOpenCV
and fallback is estimateCardHeuristic (error = that call threw).  The
inner try assigns the primary (or, when not ready, the fallback) result;
its catch retries with the fallback; the outer catch (line 365) ignores
the error, leaving cardOkRef at its previous value. -/
def cardTickFlag (ensureCV : Except Unit Unit) (cvReady : Bool)
    (primary fallback : Except Unit Bool) (prev : Bool) : Bool :=
  let inner : Except Unit Bool :=
    match ensureCV with
    | Except.error e => Except.error e
    | Except.ok _ => if cvReady then primary else fallback
  match inner with
  | Except.ok v => v
  | Except.error _ =>
      match fallback with
      | Except.ok v => v
      | Except.error _ => prev

/-- Claim C4 fails on the code: on a tick whose detector call throws, the
previous tick's true value persists (it is not reset to false), both in
face mode and in card mode when the fallback also throws. -/
theorem detector_throw_keeps_flag_cex :
    faceTickFlag (Except.error ()) true = true ∧
    cardTickFlag (Except.ok ()) true (Except.error ()) (Except.error ()) true = true := by
  decide

/-- Claim C4 (amended): a detector that resolves with no candidate resets
the flag to false for that tick, and a resolved candidate overwrites the
flag with the hit-test result; but a tick whose detector call throws is
swallowed by the catch and leaves the flag at its previous value, so a
true value does persist across a throwing tick (in card mode a throwing
primary still falls back to the heuristic result, and only when the
fallback also throws does the previous value persist). -/
theorem detection_flag_update_rules :
    (∀ prev : Bool, faceTickFlag (Except.ok none) prev = false) ∧
    (∀ prev i : Bool, faceTickFlag (Except.ok (some i)) prev = i) ∧
    (∀ prev : Bool, faceTickFlag (Except.error ()) prev = prev) ∧
    (∀ prev r : Bool, cardTickFlag (Except.ok ()) true (Except.ok r) (Except.error ()) prev = r) ∧
    (∀ prev r : Bool, cardTickFlag (Except.ok ()) false (Except.error ()) (Except.ok r) prev = r) ∧
    (∀ prev r : Bool, cardTickFlag (Except.ok ()) true (Except.error ()) (Except.ok r) prev = r) ∧
    (∀ prev r : Bool, cardTickFlag (Except.error ()) true (Except.ok r) (Except.ok r) prev = r) ∧
    (∀ prev : Bool, cardTickFlag (Except.ok ()) true (Except.error ()) (Except.error ()) prev = prev) := by
  decide

/-- The data the vision engine reports for one external contour: its
contour area and the width and height of its minimum-area rotated
rectangle. -/
structure ContourData where
  area : ℚ
  rectW : ℚ
  rectH : ℚ
deriving DecidableEq, Repr

/-- The acceptance test of line 725: rectArea strictly between 12% and 98%
of the ROI area, rotation-invariant aspect ratio strictly between 1.35 and
1.9, rectangularity above 0.6. -/
def cardAcceptCheck (areaROI : ℚ) (c : ContourData) : Bool :=
  let rectArea := c.rectW * c.rectH
  let major := max c.rectW c.rectH
  let minor := max 1 (min c.rectW c.rectH)
  let ar := major / minor
  let rectangularity := c.area / rectArea
  decide (rectArea > areaROI * 0.12) && decide (rectArea < areaROI * 0.98) &&
    decide (ar > 1.35) && decide (ar < 1.9) && decide (rectangularity > 0.6)

/-- Vision-engine resources allocated by estimateCardOpenCV. -/
inductive CVRes
  | src
  | gray
  | blurMat
  | edges
  | kernel
  | contoursVec
  | hierarchy
  | cnt (i : ℕ)
deriving DecidableEq, Repr

/-- Allocation and release events on vision-engine resources. -/
inductive CVEv
  | alloc (r : CVRes)
  | release (r : CVRes)
deriving DecidableEq, Repr

/-- The vision-engine calls of estimateCardOpenCV that can throw between
the initial allocations and the contour loop. -/
inductive CVCall
  | cvtColor
  | equalizeHist
  | gaussianBlur
  | canny
  | dilate
  | findContours
deriving DecidableEq, Repr

/-- The allocation/release events of the contour loop (lines 703-732),
fetching contour i with contours.get(i): every path through the loop body
(small-area skip, degenerate-rectangle skip, accepting break, plain
continue) deletes the fetched contour. -/
def cardLoopEvents (areaROI : ℚ) (i : ℕ) : List ContourData → List CVEv
  | [] => []
  | c :: rest =>
      CVEv.alloc (CVRes.cnt i) ::
      (if c.area < areaROI * 0.05 then
        CVEv.release (CVRes.cnt i) :: cardLoopEvents areaROI (i + 1) rest
      else if c.rectW * c.rectH ≤ 0 then
        CVEv.release (CVRes.cnt i) :: cardLoopEvents areaROI (i + 1) rest
      else if cardAcceptCheck areaROI c then
        [CVEv.release (CVRes.cnt i)]
      else
        CVEv.release (CVRes.cnt i) :: cardLoopEvents areaROI (i + 1) rest)

/-- The allocation/release events of estimateCardOpenCV (lines 660-743):
src, gray, blur, edges and kernel are allocated up front (lines 674-678),
contours and hierarchy just before findContours (lines 696-697), the loop
runs over the fetched contours, and the final cleanup (lines 735-741)
deletes the seven engine objects.  The function has no try/finally, so if
the vision-engine call named by throwAt throws, execution leaves the
function at that point and no later event happens. -/
def estimateCardOpenCVEvents (throwAt : Option CVCall) (areaROI : ℚ)
    (cs : List ContourData) : List CVEv :=
  let base := [CVEv.alloc CVRes.src, CVEv.alloc CVRes.gray, CVEv.alloc CVRes.blurMat,
               CVEv.alloc CVRes.edges, CVEv.alloc CVRes.kernel]
  if throwAt = some CVCall.cvtColor then base
  else if throwAt = some CVCall.equalizeHist then base
  else if throwAt = some CVCall.gaussianBlur then base
  else if throwAt = some CVCall.canny then base
  else if throwAt = some CVCall.dilate then base
  else
    let base2 := base ++ [CVEv.alloc CVRes.contoursVec, CVEv.alloc CVRes.hierarchy]
    if throwAt = some CVCall.findContours then base2
    else
      base2 ++ cardLoopEvents areaROI 0 cs ++
        [CVEv.release CVRes.src, CVEv.release CVRes.gray, CVEv.release CVRes.blurMat,
         CVEv.release CVRes.edges, CVEv.release CVRes.contoursVec,
         CVEv.release CVRes.hierarchy, CVEv.release CVRes.kernel]

/-- One allocation/release step on the list of live resources. -/
def cvStep (acc : List CVRes) (e : CVEv) : List CVRes :=
  match e with
  | CVEv.alloc r => acc ++ [r]
  | CVEv.release r => acc.erase r

/-- The resources still live (allocated and never released) after a list
of events. -/
def leakedAfter (evs : List CVEv) : List CVRes :=
  evs.foldl cvStep []

/-- Claim C6 fails on the code: when cvtColor (the first vision-engine
call after the allocations) throws, estimateCardOpenCV leaks src, gray,
blur, edges and kernel: there is no try/finally, so the cleanup at the end
of the function is never reached. -/
theorem opencv_exception_leak_cex :
    leakedAfter (estimateCardOpenCVEvents (some CVCall.cvtColor) 183600 [])
      = [CVRes.src, CVRes.gray, CVRes.blurMat, CVRes.edges, CVRes.kernel] ∧
    leakedAfter (estimateCardOpenCVEvents (some CVCall.cvtColor) 183600 []) ≠ [] := by
  constructor
  · rfl
  · intro hc
    simp [leakedAfter, estimateCardOpenCVEvents, cvStep] at hc

/-- In the contour loop every fetched contour handle is deleted before the
loop moves on or exits, so the loop leaves the set of live resources
unchanged (for any accumulator holding no contour handle). -/
theorem cardLoopEvents_preserves (areaROI : ℚ) :
    ∀ (cs : List ContourData) (i : ℕ) (acc : List CVRes),
      (∀ j : ℕ, CVRes.cnt j ∉ acc) →
      List.foldl cvStep acc (cardLoopEvents areaROI i cs) = acc := by
  intro cs
  induction cs with
  | nil => intro i acc _; rfl
  | cons c rest ih =>
      intro i acc hacc
      have herase : (acc ++ [CVRes.cnt i]).erase (CVRes.cnt i) = acc := by
        rw [List.erase_append_right _ (hacc i)]
        simp
      unfold cardLoopEvents
      split_ifs <;>
        simp only [List.foldl_cons, cvStep, herase] <;>
        first
          | rfl
          | exact ih (i + 1) acc hacc

/-- Claim C6 (amended): on every execution path on which no vision-engine
call throws -- whatever the contour list and whether the ROI is accepted,
rejected, or the loop breaks early -- every allocated resource (the seven
engine objects and each fetched contour) is released; but on a path where
an intermediate vision-engine call throws, the resources allocated before
the throw are not released. -/
theorem opencv_no_throw_releases_all :
    ∀ (areaROI : ℚ) (cs : List ContourData),
      leakedAfter (estimateCardOpenCVEvents none areaROI cs) = [] := by
  intro areaROI cs
  have hbase : List.foldl cvStep ([] : List CVRes)
      ([CVEv.alloc CVRes.src, CVEv.alloc CVRes.gray, CVEv.alloc CVRes.blurMat,
        CVEv.alloc CVRes.edges, CVEv.alloc CVRes.kernel] ++
       [CVEv.alloc CVRes.contoursVec, CVEv.alloc CVRes.hierarchy])
      = [CVRes.src, CVRes.gray, CVRes.blurMat, CVRes.edges, CVRes.kernel,
         CVRes.contoursVec, CVRes.hierarchy] := rfl
  have hfresh : ∀ j : ℕ, CVRes.cnt j ∉
      [CVRes.src, CVRes.gray, CVRes.blurMat, CVRes.edges, CVRes.kernel,
       CVRes.contoursVec, CVRes.hierarchy] := by
    intro j
    simp
  unfold leakedAfter estimateCardOpenCVEvents
  simp only [reduceCtorEq, if_false]
  rw [List.foldl_append, List.foldl_append, hbase,
      cardLoopEvents_preserves areaROI cs 0 _ hfresh]
  rfl

/-- The contour loop of estimateCardOpenCV (lines 703-732) as a decision
on the list of external contours reported by findContours, in order: skip
a contour whose area is below 5% of the ROI area, skip a degenerate
minimum-area rectangle, and stop with true at the first contour passing
the acceptance test of line 725. -/
def cardLoopDecision (areaROI : ℚ) : List ContourData → Bool
  | [] => false
  | c :: rest =>
      if c.area < areaROI * 0.05 then cardLoopDecision areaROI rest
      else if c.rectW * c.rectH ≤ 0 then cardLoopDecision areaROI rest
      else if cardAcceptCheck areaROI c then true
      else cardLoopDecision areaROI rest

/-- The number of contours the loop fetches (iterations of the body)
before it returns: the loop breaks at the first accepting contour. -/
def cardLoopFetched (areaROI : ℚ) : List ContourData → ℕ
  | [] => 0
  | c :: rest =>
      1 + (if c.area < areaROI * 0.05 then cardLoopFetched areaROI rest
           else if c.rectW * c.rectH ≤ 0 then cardLoopFetched areaROI rest
           else if cardAcceptCheck areaROI c then 0
           else cardLoopFetched areaROI rest)

/-- The acceptance predicate as the claim states it: area at least 5% of
the ROI area, rotated-rectangle area strictly between 12% and 98% of the
ROI area, rotation-invariant aspect ratio max(w,h)/max(1,min(w,h))
strictly between 1.35 and 1.9, and rectangularity above 0.6. -/
def AcceptsCardSpec (areaROI : ℚ) (c : ContourData) : Prop :=
  areaROI * 0.05 ≤ c.area ∧
  areaROI * 0.12 < c.rectW * c.rectH ∧
  c.rectW * c.rectH < areaROI * 0.98 ∧
  1.35 < max c.rectW c.rectH / max 1 (min c.rectW c.rectH) ∧
  max c.rectW c.rectH / max 1 (min c.rectW c.rectH) < 1.9 ∧
  0.6 < c.area / (c.rectW * c.rectH)

instance (areaROI : ℚ) (c : ContourData) : Decidable (AcceptsCardSpec areaROI c) := by
  unfold AcceptsCardSpec; infer_instance

/-- The boolean acceptance test agrees with the stated predicate once the
two skip guards have passed. -/
theorem cardAcceptCheck_eq_true_iff (areaROI : ℚ) (c : ContourData) :
    cardAcceptCheck areaROI c = true ↔
      (areaROI * 0.12 < c.rectW * c.rectH ∧
       c.rectW * c.rectH < areaROI * 0.98 ∧
       1.35 < max c.rectW c.rectH / max 1 (min c.rectW c.rectH) ∧
       max c.rectW c.rectH / max 1 (min c.rectW c.rectH) < 1.9 ∧
       0.6 < c.area / (c.rectW * c.rectH)) := by
  unfold cardAcceptCheck
  simp only [Bool.and_eq_true, decide_eq_true_eq, gt_iff_lt]
  tauto

/-- Claim C8: for a positive ROI area, the contour loop returns true
exactly when some reported external contour satisfies the stated
area/aspect/rectangularity conditions, and the loop fetches exactly one
contour when the first contour accepts (it stops at the first accepting
contour). -/
theorem card_contour_accept_iff (areaROI : ℚ) (hA : 0 < areaROI) :
    (∀ cs : List ContourData,
      (cardLoopDecision areaROI cs = true ↔ ∃ c ∈ cs, AcceptsCardSpec areaROI c)) ∧
    (∀ (c : ContourData) (rest : List ContourData),
      AcceptsCardSpec areaROI c → cardLoopFetched areaROI (c :: rest) = 1) := by
  have hcheck : ∀ c : ContourData, ¬ (c.area < areaROI * 0.05) →
      ¬ (c.rectW * c.rectH ≤ 0) →
      (cardAcceptCheck areaROI c = true ↔ AcceptsCardSpec areaROI c) := by
    intro c h1 _
    rw [cardAcceptCheck_eq_true_iff]
    unfold AcceptsCardSpec
    constructor
    · intro hc
      exact ⟨le_of_not_lt h1, hc⟩
    · intro hc
      exact hc.2
  have haccept_no_skip : ∀ c : ContourData, AcceptsCardSpec areaROI c →
      ¬ (c.area < areaROI * 0.05) ∧ ¬ (c.rectW * c.rectH ≤ 0) := by
    intro c hc
    obtain ⟨h5, h12, _⟩ := hc
    constructor
    · exact not_lt.mpr h5
    · have h0 : (0 : ℚ) < areaROI * 0.12 := by positivity
      exact not_le.mpr (lt_trans h0 h12)
  constructor
  · intro cs
    induction cs with
    | nil => simp [cardLoopDecision]
    | cons c rest ih =>
        unfold cardLoopDecision
        by_cases h1 : c.area < areaROI * 0.05
        · rw [if_pos h1, ih]
          constructor
          · rintro ⟨d, hd, had⟩
            exact ⟨d, List.mem_cons_of_mem c hd, had⟩
          · rintro ⟨d, hd, had⟩
            rcases List.mem_cons.mp hd with hdc | hdr
            · subst hdc
              exact absurd h1 (haccept_no_skip d had).1
            · exact ⟨d, hdr, had⟩
        · rw [if_neg h1]
          by_cases h2 : c.rectW * c.rectH ≤ 0
          · rw [if_pos h2, ih]
            constructor
            · rintro ⟨d, hd, had⟩
              exact ⟨d, List.mem_cons_of_mem c hd, had⟩
            · rintro ⟨d, hd, had⟩
              rcases List.mem_cons.mp hd with hdc | hdr
              · subst hdc
                exact absurd h2 (haccept_no_skip d had).2
              · exact ⟨d, hdr, had⟩
          · rw [if_neg h2]
            by_cases h3 : cardAcceptCheck areaROI c = true
            · rw [if_pos h3]
              simp only [true_iff]
              exact ⟨c, List.mem_cons_self c rest, (hcheck c h1 h2).mp h3⟩
            · rw [if_neg h3, ih]
              constructor
              · rintro ⟨d, hd, had⟩
                exact ⟨d, List.mem_cons_of_mem c hd, had⟩
              · rintro ⟨d, hd, had⟩
                rcases List.mem_cons.mp hd with hdc | hdr
                · subst hdc
                  exact absurd ((hcheck d h1 h2).mpr had) h3
                · exact ⟨d, hdr, had⟩
  · intro c rest hc
    obtain ⟨hskip1, hskip2⟩ := haccept_no_skip c hc
    unfold cardLoopFetched
    rw [if_neg hskip1, if_neg hskip2, if_pos ((hcheck c hskip1 hskip2).mpr hc)]

/-- Claim C8 witness: for the 540 x 340 working ROI (area 183600), a
contour of area 70000 whose minimum-area rectangle is 400 x 250
(rectangle area 100000, aspect ratio 1.6, rectangularity 0.7) makes the
loop return true. -/
theorem card_contour_accept_iff_witness :
    cardLoopDecision 183600 [ContourData.mk 70000 400 250] = true :=
  ((card_contour_accept_iff 183600 (by norm_num)).1
      [ContourData.mk 70000 400 250]).mpr
    ⟨ContourData.mk 70000 400 250, List.mem_singleton.mpr rfl, by
      unfold AcceptsCardSpec
      norm_num⟩

/-- The luminance of the pixel whose red channel is at byte offset i
(line 627): 0.299*R + 0.587*G + 0.114*B. -/
def lumQ (d : ℕ → ℕ) (i : ℕ) : ℚ :=
  0.299 * (d i : ℚ) + 0.587 * (d (i + 1) : ℚ) + 0.114 * (d (i + 2) : ℚ)

/-- Byte offset of pixel (x,y) in an RGBA buffer of width w (line 628). -/
def pxIdx (w x y : ℕ) : ℕ := (y * w + x) * 4

/-- Normalized luminance difference of one sample pair: abs(Y1-Y2)/255. -/
def pairDiff (d : ℕ → ℕ) (i j : ℕ) : ℚ := |lumQ d i - lumQ d j| / 255

/-- clamp(v, lo, hi) of line 629 (on the naturals actually used here). -/
def jsClamp (v lo hi : ℕ) : ℕ := max lo (min hi v)

/-- Math.round on an exact rational: floor(q + 1/2). -/
def jsRound (q : ℚ) : ℤ := ⌊q + 1 / 2⌋

/-- Width of the heuristic detector's fixed working raster (line 605). -/
def heurOutW : ℕ := 320

/-- Height of the heuristic detector's fixed working raster
(line 606): max(1, round(320/1.586)). -/
def heurOutH : ℕ := max 1 (jsRound ((320 : ℚ) / 1.586)).toNat

/-- First loop of edgeScore (lines 634-644): 200 sample columns
x = 2 + floor((w-4)*s/200), each contributing the pair near the top edge
(rows 2 and min(5,h-1)) and the pair near the bottom edge (rows h-3 and
clamp(h-6,0,h-1)). -/
def edgeScoreTopBottom (d : ℕ → ℕ) (w h : ℕ) : ℚ :=
  ∑ s in Finset.range 200,
    (pairDiff d (pxIdx w (2 + (w - 4) * s / 200) 2)
       (pxIdx w (2 + (w - 4) * s / 200) (min 5 (h - 1)))
     + pairDiff d (pxIdx w (2 + (w - 4) * s / 200) (h - 3))
       (pxIdx w (2 + (w - 4) * s / 200) (jsClamp (h - 6) 0 (h - 1))))

/-- Second loop of edgeScore (lines 645-655): 200 sample rows
y = 2 + floor((h-4)*s/200), each contributing the pair near the left edge
(columns 2 and min(5,w-1)) and the pair near the right edge (columns w-3
and clamp(w-6,0,w-1)). -/
def edgeScoreLeftRight (d : ℕ → ℕ) (w h : ℕ) : ℚ :=
  ∑ s in Finset.range 200,
    (pairDiff d (pxIdx w 2 (2 + (h - 4) * s / 200))
       (pxIdx w (min 5 (w - 1)) (2 + (h - 4) * s / 200))
     + pairDiff d (pxIdx w (w - 3) (2 + (h - 4) * s / 200))
       (pxIdx w (jsClamp (w - 6) 0 (w - 1)) (2 + (h - 4) * s / 200)))

/-- edgeScore (lines 626-657): acc/n where acc is the total of the two
sampling loops and n counts two increments per iteration of each of the
two 200-iteration loops, so n = 800. -/
def edgeScore (d : ℕ → ℕ) (w h : ℕ) : ℚ :=
  (edgeScoreTopBottom d w h + edgeScoreLeftRight d w h) / 800

/-- estimateCardHeuristic (lines 602-618): draw the ROI into the fixed
320-wide working raster and accept exactly when the edge score exceeds
the tunable threshold 0.18. -/
def estimateCardHeuristicDecision (d : ℕ → ℕ) : Bool :=
  decide (edgeScore d heurOutW heurOutH > 0.18)

theorem lumQ_nonneg (d : ℕ → ℕ) (i : ℕ) : 0 ≤ lumQ d i := by
  unfold lumQ
  positivity

theorem lumQ_le_255 (d : ℕ → ℕ) (hd : ∀ k, d k ≤ 255) (i : ℕ) :
    lumQ d i ≤ 255 := by
  unfold lumQ
  have h0 : (d i : ℚ) ≤ 255 := by exact_mod_cast hd i
  have h1 : (d (i + 1) : ℚ) ≤ 255 := by exact_mod_cast hd (i + 1)
  have h2 : (d (i + 2) : ℚ) ≤ 255 := by exact_mod_cast hd (i + 2)
  linarith

theorem pairDiff_nonneg (d : ℕ → ℕ) (i j : ℕ) : 0 ≤ pairDiff d i j := by
  unfold pairDiff
  positivity

theorem pairDiff_le_one (d : ℕ → ℕ) (hd : ∀ k, d k ≤ 255) (i j : ℕ) :
    pairDiff d i j ≤ 1 := by
  unfold pairDiff
  rw [div_le_one (by norm_num : (0 : ℚ) < 255)]
  rw [abs_sub_le_iff]
  constructor
  · have ha := lumQ_le_255 d hd i
    have hb := lumQ_nonneg d j
    linarith
  · have ha := lumQ_le_255 d hd j
    have hb := lumQ_nonneg d i
    linarith

theorem sum_pairs_nonneg (f g : ℕ → ℚ) (h0 : ∀ s, 0 ≤ f s) (h1 : ∀ s, 0 ≤ g s) :
    0 ≤ ∑ s in Finset.range 200, (f s + g s) :=
  Finset.sum_nonneg fun s _ => add_nonneg (h0 s) (h1 s)

theorem sum_pairs_le (f g : ℕ → ℚ) (h0 : ∀ s, f s ≤ 1) (h1 : ∀ s, g s ≤ 1) :
    (∑ s in Finset.range 200, (f s + g s)) ≤ 400 := by
  calc (∑ s in Finset.range 200, (f s + g s))
      ≤ ∑ s in Finset.range 200, (2 : ℚ) :=
        Finset.sum_le_sum fun s _ => by
          have := h0 s
          have := h1 s
          linarith
    _ = 400 := by
        rw [Finset.sum_const, Finset.card_range, nsmul_eq_mul]
        norm_num

theorem edgeScoreTopBottom_bounds (d : ℕ → ℕ) (hd : ∀ k, d k ≤ 255) (w h : ℕ) :
    0 ≤ edgeScoreTopBottom d w h ∧ edgeScoreTopBottom d w h ≤ 400 := by
  unfold edgeScoreTopBottom
  exact ⟨sum_pairs_nonneg _ _ (fun s => pairDiff_nonneg d _ _)
      (fun s => pairDiff_nonneg d _ _),
    sum_pairs_le _ _ (fun s => pairDiff_le_one d hd _ _)
      (fun s => pairDiff_le_one d hd _ _)⟩

theorem edgeScoreLeftRight_bounds (d : ℕ → ℕ) (hd : ∀ k, d k ≤ 255) (w h : ℕ) :
    0 ≤ edgeScoreLeftRight d w h ∧ edgeScoreLeftRight d w h ≤ 400 := by
  unfold edgeScoreLeftRight
  exact ⟨sum_pairs_nonneg _ _ (fun s => pairDiff_nonneg d _ _)
      (fun s => pairDiff_nonneg d _ _),
    sum_pairs_le _ _ (fun s => pairDiff_le_one d hd _ _)
      (fun s => pairDiff_le_one d hd _ _)⟩

/-- Claim C9: the heuristic detector's working raster is the fixed
320 x 202 raster; for every pixel buffer over it whose bytes are in
0..255, the edge score (the 800-sample average of the normalized
luminance differences abs(Y1-Y2)/255 with luma weights
0.299/0.587/0.114) lies in [0,1], and the detector reports card present
exactly when the score is strictly greater than 0.18. -/
theorem heuristic_edge_score_props (d : ℕ → ℕ) (hd : ∀ i, d i ≤ 255) :
    heurOutW = 320 ∧ heurOutH = 202 ∧
    0 ≤ edgeScore d heurOutW heurOutH ∧
    edgeScore d heurOutW heurOutH ≤ 1 ∧
    (estimateCardHeuristicDecision d = true ↔
      0.18 < edgeScore d heurOutW heurOutH) := by
  have hH : heurOutH = 202 := by
    have hfloor : (⌊(320 : ℚ) / 1.586 + 1 / 2⌋ : ℤ) = 202 := by norm_num
    unfold heurOutH jsRound
    rw [hfloor]
    rfl
  have htb := edgeScoreTopBottom_bounds d hd heurOutW heurOutH
  have hlr := edgeScoreLeftRight_bounds d hd heurOutW heurOutH
  refine ⟨rfl, hH, ?_, ?_, ?_⟩
  · unfold edgeScore
    apply div_nonneg _ (by norm_num)
    linarith [htb.1, hlr.1]
  · unfold edgeScore
    rw [div_le_one (by norm_num : (0 : ℚ) < 800)]
    linarith [htb.2, hlr.2]
  · unfold estimateCardHeuristicDecision
    exact decide_eq_true_iff

/-- Claim C9 witness: the all-zero (solid black) buffer is a valid pixel
buffer; the theorem instantiates to it, in particular its score lies in
[0,1] and the detector decision is the strict threshold comparison. -/
theorem heuristic_edge_score_props_witness :
    heurOutW = 320 ∧ heurOutH = 202 ∧
    0 ≤ edgeScore (fun _ => 0) heurOutW heurOutH ∧
    edgeScore (fun _ => 0) heurOutW heurOutH ≤ 1 ∧
    (estimateCardHeuristicDecision (fun _ => 0) = true ↔
      0.18 < edgeScore (fun _ => 0) heurOutW heurOutH) :=
  heuristic_edge_score_props (fun _ => 0) (fun _ => Nat.zero_le 255)
